import Mathlib

/-!
Shallow embedding of the Go messaging backend (src/main.go):
the HTTP handlers, the Redis-stream producer/consumer pipeline, and the
relational store, together with theorems checking the specification.

Modelling conventions:
- the relational store (the Postgres messages table) is a list of rows;
- a Redis stream entry is a stream id plus an association list of
  dynamically typed values, mirroring the Go field map of the entry;
- I/O failures (Begin, Exec, Commit, XAdd, XAck, Query) are injected through
  explicit boolean oracles so that each error path of the source is a branch
  of the Lean definition;
- a Go panic (failed type assertion, close of a closed channel) is an
  explicit outcome constructor.
-/

namespace Messaging

/-- A row of the relational messages table
(message_id, sender_id, receiver_id, content, timestamp, read, status). -/
structure Row where
  message_id  : String
  sender_id   : String
  receiver_id : String
  content     : String
  timestamp   : String
  read        : Bool
  status      : String
  deriving DecidableEq, Repr

/-- A dynamically typed value in a stream entry field map, as in the Go
map from string to interface values. -/
inductive DynVal where
  | str  (s : String)
  | bool (b : Bool)
  | int  (n : Int)
  deriving DecidableEq, Repr

/-- A Redis stream message as delivered to a consumer: the id field is the
stream entry id assigned by Redis at XAdd time; the values field is the
entry field map. -/
structure StreamMessage where
  id     : String
  values : List (String × DynVal)
  deriving DecidableEq, Repr

/-- Field-map lookup, as Go map indexing (a missing key yields the nil
interface value, modelled by none). -/
def lookupVal : List (String × DynVal) → String → Option DynVal
  | [], _ => none
  | (k, v) :: rest, key => if k = key then some v else lookupVal rest key

/-- The Go type assertion to string on an interface value: succeeds only on
a string; on a missing key or a non-string value it panics (none). -/
def assertString : Option DynVal → Option String
  | some (DynVal.str s) => some s
  | _ => none

/-- The five fields the worker extracts from a stream entry
(src/main.go lines 316-320); message_id is NOT among them — the worker
takes message.ID, the stream entry id, instead. -/
structure Extracted where
  sender_id   : String
  receiver_id : String
  content     : String
  timestamp   : String
  status      : String
  deriving DecidableEq, Repr

/-- The worker field extraction: five unchecked type assertions on the
entry field map. Any missing or non-string field makes the whole
extraction panic (none). -/
def extractFields (m : StreamMessage) : Option Extracted :=
  match assertString (lookupVal m.values "sender_id"),
        assertString (lookupVal m.values "receiver_id"),
        assertString (lookupVal m.values "content"),
        assertString (lookupVal m.values "timestamp"),
        assertString (lookupVal m.values "status") with
  | some s, some r, some c, some t, some st =>
      some { sender_id := s, receiver_id := r, content := c,
             timestamp := t, status := st }
  | _, _, _, _, _ => none

/-- Failure-injection oracle for one worker cycle: whether Begin, the
INSERT Exec, the UPDATE Exec, Commit and XAck succeed. -/
structure FailSpec where
  beginOk  : Bool
  insertOk : Bool
  updateOk : Bool
  commitOk : Bool
  ackOk    : Bool
  deriving DecidableEq, Repr

/-- The all-success oracle. -/
def fxAllOk : FailSpec :=
  { beginOk := true, insertOk := true, updateOk := true,
    commitOk := true, ackOk := true }

/-- The row the INSERT of the worker builds from a claimed entry: the
message_id column receives the stream entry id (message.ID in the source),
read is the literal false, status comes from the entry fields. -/
def rowOfEntry (entryId : String) (f : Extracted) : Row :=
  { message_id := entryId, sender_id := f.sender_id,
    receiver_id := f.receiver_id, content := f.content,
    timestamp := f.timestamp, read := false, status := f.status }

/-- The unconditional UPDATE of the worker inside the transaction:
SET status = delivered WHERE message_id matches. -/
def setDelivered (entryId : String) (db : List Row) : List Row :=
  db.map fun r =>
    if r.message_id = entryId then { r with status := "delivered" } else r

/-- The per-entry unit of work against the store (src/main.go lines
322-359): Begin, INSERT the row, UPDATE its status to delivered, Commit.
Effects become visible only on a successful Commit; any failure rolls the
transaction back in full (none). -/
def runUnitOfWork (db : List Row) (entryId : String) (f : Extracted)
    (fx : FailSpec) : Option (List Row) :=
  if !fx.beginOk then none
  else
    let tx1 := db ++ [rowOfEntry entryId f]
    if !fx.insertOk then none
    else
      let tx2 := setDelivered entryId tx1
      if !fx.updateOk then none
      else if !fx.commitOk then none
      else some tx2

/-- Outcome of the worker processing one stream message: either the
goroutine panicked (store left as it was), or the cycle finished with the
resulting store, whether XAck was called, and whether it succeeded. -/
inductive Outcome where
  | panicked (db : List Row)
  | done (db : List Row) (ackCalled : Bool) (ackSucceeded : Bool)
  deriving DecidableEq, Repr

/-- One worker processing cycle for a claimed stream message: extract the
fields (panics on a malformed entry), run the unit of work, and XAck only
after a successful commit; an XAck failure is only logged. -/
def processStreamMessage (db : List Row) (m : StreamMessage)
    (fx : FailSpec) : Outcome :=
  match extractFields m with
  | none => Outcome.panicked db
  | some f =>
      match runUnitOfWork db m.id f fx with
      | none => Outcome.done db false false
      | some db2 => Outcome.done db2 true fx.ackOk

/-- An HTTP response: status code plus a flat JSON-object body of string
key-value pairs (array bodies are carried separately by the handlers that
produce them). -/
structure HttpResponse where
  code : Nat
  body : List (String × String)
  deriving DecidableEq, Repr

/-- The JSON body the POST /messages handler binds the request into: the
client may supply any of these fields, including message_id, read and
status. -/
structure MsgInput where
  message_id  : String
  sender_id   : String
  receiver_id : String
  content     : String
  read        : Bool
  status      : String
  deriving DecidableEq, Repr

/-- The field set of one durable-log entry as the producer XAdd writes it:
generated message_id, the three client fields, the stamped timestamp, the
literal read false and status sent. -/
structure EntryFields where
  message_id  : String
  sender_id   : String
  receiver_id : String
  content     : String
  timestamp   : String
  read        : Bool
  status      : String
  deriving DecidableEq, Repr

/-- Result of the POST /messages handler: the HTTP response, the entries
appended to the durable log by this call, and the relational store after
the call (the handler never touches the store connection). -/
structure SendResult where
  resp     : HttpResponse
  appended : List EntryFields
  db       : List Row
  deriving DecidableEq, Repr

/-- The POST /messages handler (src/main.go lines 165-203): reject with
400 when sender_id, receiver_id or content is empty (no append);
otherwise XAdd one entry with a fresh id, the current RFC3339 time,
read false and status sent; 500 when the append fails, else 200. -/
def sendMessage (db : List Row) (msg : MsgInput) (freshId now : String)
    (appendOk : Bool) : SendResult :=
  if msg.sender_id = "" ∨ msg.receiver_id = "" ∨ msg.content = "" then
    { resp := { code := 400, body := [("error", "Invalid message data")] },
      appended := [], db := db }
  else
    let entry : EntryFields :=
      { message_id := freshId, sender_id := msg.sender_id,
        receiver_id := msg.receiver_id, content := msg.content,
        timestamp := now, read := false, status := "sent" }
    if appendOk then
      { resp := { code := 200, body := [("status", "Message queued")] },
        appended := [entry], db := db }
    else
      { resp := { code := 500,
                  body := [("error", "Failed to add message to stream")] },
        appended := [], db := db }

/-- Redis stores every stream field as a string, so a consumer reading the
entry back sees the boolean read field stringified; this converts an
appended entry into the stream message a consumer receives, tagged with
the entry id Redis assigned. -/
def toStreamMessage (entryId : String) (e : EntryFields) : StreamMessage :=
  { id := entryId,
    values := [("message_id", DynVal.str e.message_id),
               ("sender_id", DynVal.str e.sender_id),
               ("receiver_id", DynVal.str e.receiver_id),
               ("content", DynVal.str e.content),
               ("timestamp", DynVal.str e.timestamp),
               ("read", DynVal.str (if e.read then "true" else "false")),
               ("status", DynVal.str e.status)] }

/-- The record the GET /messages handler scans a row into. The SELECT list
of the query is message_id, sender_id, receiver_id, content, timestamp,
read — the status column is absent and Scan never assigns the Status
field, which therefore keeps the Go zero value of a string. -/
structure MsgJson where
  message_id  : String
  sender_id   : String
  receiver_id : String
  content     : String
  timestamp   : String
  read        : Bool
  status      : String
  deriving DecidableEq, Repr

/-- Scanning one fetched row into the response record: six columns are
scanned; status stays at the empty-string zero value. -/
def scanRow (r : Row) : MsgJson :=
  { message_id := r.message_id, sender_id := r.sender_id,
    receiver_id := r.receiver_id, content := r.content,
    timestamp := r.timestamp, read := r.read, status := "" }

/-- The WHERE clause of the conversation query: sender and receiver match
the two users in either direction. -/
def inConversation (u1 u2 : String) (r : Row) : Bool :=
  (r.sender_id = u1 && r.receiver_id = u2) ||
  (r.sender_id = u2 && r.receiver_id = u1)

/-- Lexicographic order on character lists (by code point). -/
def charListLe : List Char → List Char → Bool
  | [], _ => true
  | _ :: _, [] => false
  | a :: as, b :: bs =>
      if a.toNat < b.toNat then true
      else if b.toNat < a.toNat then false
      else charListLe as bs

/-- Lexicographic string order; on RFC3339 timestamps of equal offset this
coincides with chronological order, which is what ORDER BY timestamp
compares. -/
def tsLe (a b : String) : Bool :=
  charListLe a.data b.data

/-- Insert a row into a list sorted by timestamp descending. -/
def insertTsDesc (r : Row) : List Row → List Row
  | [] => [r]
  | x :: xs =>
      if tsLe x.timestamp r.timestamp then r :: x :: xs
      else x :: insertTsDesc r xs

/-- ORDER BY timestamp DESC (RFC3339 strings compare chronologically as
strings). -/
def sortTsDesc (l : List Row) : List Row :=
  l.foldr insertTsDesc []

/-- The GET /messages handler (src/main.go lines 102-162): 400 when either
user parameter is missing, 500 when the store query fails, otherwise 200
with the conversation rows ordered by timestamp descending, each scanned
by scanRow. -/
def getMessages (db : List Row) (u1 u2 : String) (queryOk : Bool) :
    HttpResponse × List MsgJson :=
  if u1 = "" ∨ u2 = "" then
    ({ code := 400, body := [("error", "user1 and user2 are required")] }, [])
  else if !queryOk then
    ({ code := 500, body := [("error", "Failed to fetch messages")] }, [])
  else
    ({ code := 200, body := [] },
     (sortTsDesc (db.filter (inConversation u1 u2))).map scanRow)

/-- The row transform of the PUT /messages/:id/delivered UPDATE: SET
status = delivered WHERE message_id matches AND status = sent. -/
def deliveredUpdate (id : String) (r : Row) : Row :=
  if r.message_id = id ∧ r.status = "sent" then
    { r with status := "delivered" }
  else r

/-- The PUT /messages/:id/delivered handler (src/main.go lines 206-216):
run the conditional UPDATE; 500 only when the Exec fails, otherwise 200
whether or not any row matched (RowsAffected is never inspected). -/
def markMessageAsDelivered (db : List Row) (id : String) (execOk : Bool) :
    HttpResponse × List Row :=
  if execOk then
    ({ code := 200,
       body := [("message", "Message status updated to delivered")] },
     db.map (deliveredUpdate id))
  else
    ({ code := 500, body := [("error", "exec failed")] }, db)

/-- Does the second character list start with the first? -/
def leadsWith : List Char → List Char → Bool
  | [], _ => true
  | _ :: _, [] => false
  | a :: as, b :: bs => a = b && leadsWith as bs

/-- Does the character list contain the first list as a contiguous run? -/
def hasSubList (sub : List Char) : List Char → Bool
  | [] => sub.isEmpty
  | c :: rest => leadsWith sub (c :: rest) || hasSubList sub rest

/-- Substring containment, as the Go strings.Contains used on the
create-group error text. -/
def strContains (s sub : String) : Bool :=
  hasSubList sub.data s.data

/-- Outcome of worker startup. -/
inductive StartupOutcome where
  | groupReady
  | fatal
  deriving DecidableEq, Repr

/-- The XGroupCreateMkStream step of startWorker (src/main.go lines
284-287): an error whose text carries BUSYGROUP (group already exists) is
ignored and the worker proceeds; any other error is fatal
(log.Fatalf terminates the process). -/
def createGroupStartup (err : Option String) : StartupOutcome :=
  match err with
  | none => StartupOutcome.groupReady
  | some msg =>
      if strContains msg "BUSYGROUP" then StartupOutcome.groupReady
      else StartupOutcome.fatal

/-- Closing a Go channel, by closed flag: closing an already-closed
channel panics (none). -/
def closeChan (closed : Bool) : Option Bool :=
  if closed then none else some true

/-- stopWorker (src/main.go lines 375-377) is exactly close(quit) on the
package-level quit channel. -/
def stopWorker (quitClosed : Bool) : Option Bool :=
  closeChan quitClosed

/-- Control position of the worker loop. -/
inductive Phase where
  | polling      -- at the top of the for loop, about to run the select
  | blockedRead  -- inside XReadGroup with Block 0 and no entry available
  | crashed      -- the goroutine panicked
  | stopped      -- returned after receiving from quit
  deriving DecidableEq, Repr

/-- State of the worker loop together with its environment: the quit
channel, the entries not yet delivered to the consumer group, and the
relational store. -/
structure WorkerState where
  phase      : Phase
  quitClosed : Bool
  pending    : List StreamMessage
  db         : List Row
  deriving DecidableEq, Repr

/-- Reading one available entry and processing it, then returning to the
loop top (or crashing on a malformed entry). -/
def handleNext (fx : FailSpec) (s : WorkerState) (m : StreamMessage)
    (rest : List StreamMessage) : WorkerState :=
  match processStreamMessage s.db m fx with
  | Outcome.panicked db2 =>
      { s with phase := Phase.crashed, pending := rest, db := db2 }
  | Outcome.done db2 _ _ =>
      { s with phase := Phase.polling, pending := rest, db := db2 }

/-- One step of the worker loop (src/main.go lines 289-371). At the loop
top the select receives from quit when it is closed (the default branch
runs only when quit is open). XReadGroup is called with Block 0 and the
background context, so once the worker is blocked inside the read, only
the arrival of an entry lets it continue: the quit channel is not
consulted there. -/
def step (fx : FailSpec) (s : WorkerState) : WorkerState :=
  match s.phase with
  | Phase.stopped => s
  | Phase.crashed => s
  | Phase.polling =>
      if s.quitClosed then { s with phase := Phase.stopped }
      else
        match s.pending with
        | [] => { s with phase := Phase.blockedRead }
        | m :: rest => handleNext fx s m rest
  | Phase.blockedRead =>
      match s.pending with
      | [] => s
      | m :: rest => handleNext fx s m rest

/-! Concrete fixtures: the scenario of the specification — append
sender u1, receiver u2, content hi; the worker commits; then the
conversation is fetched. -/

/-- The scenario request body (client leaves message_id, read, status at
their zero values). -/
def inScenario : MsgInput :=
  { message_id := "", sender_id := "u1", receiver_id := "u2",
    content := "hi", read := false, status := "" }

/-- The durable-log entry the producer appends for the scenario request,
with fresh id uuid-1 and the stamped time. -/
def eScenario : EntryFields :=
  { message_id := "uuid-1", sender_id := "u1", receiver_id := "u2",
    content := "hi", timestamp := "2025-03-15T12:00:00Z",
    read := false, status := "sent" }

/-- The scenario entry as the consumer receives it, under the stream
entry id Redis assigned at XAdd time. -/
def mScenario : StreamMessage :=
  toStreamMessage "1680000000000-0" eScenario

/-- The row the worker commits for the scenario entry: note the
message_id column holds the stream entry id, not uuid-1. -/
def rowScenario : Row :=
  { message_id := "1680000000000-0", sender_id := "u1",
    receiver_id := "u2", content := "hi",
    timestamp := "2025-03-15T12:00:00Z", read := false,
    status := "delivered" }

/-- An older committed row of the same conversation, for checking the
descending order of the fetch. -/
def rowOld : Row :=
  { message_id := "m-old", sender_id := "u2", receiver_id := "u1",
    content := "earlier", timestamp := "2025-01-01T00:00:00Z",
    read := true, status := "read" }

/-- A well-formed stream entry except that the status field is absent. -/
def mNoStatus : StreamMessage :=
  { id := "1-0",
    values := [("message_id", DynVal.str "uuid-9"),
               ("sender_id", DynVal.str "u1"),
               ("receiver_id", DynVal.str "u2"),
               ("content", DynVal.str "hi"),
               ("timestamp", DynVal.str "2025-01-01T00:00:00Z"),
               ("read", DynVal.str "false")] }

/-- A stream entry whose content field is not a string. -/
def mIntContent : StreamMessage :=
  { id := "2-0",
    values := [("message_id", DynVal.str "uuid-8"),
               ("sender_id", DynVal.str "u1"),
               ("receiver_id", DynVal.str "u2"),
               ("content", DynVal.int 5),
               ("timestamp", DynVal.str "2025-01-01T00:00:00Z"),
               ("read", DynVal.str "false"),
               ("status", DynVal.str "sent")] }

/-- A worker blocked inside the read, stop signal already raised, no
entry available. -/
def sBlocked : WorkerState :=
  { phase := Phase.blockedRead, quitClosed := true, pending := [], db := [] }

/-! Theorems settling the claims. -/

/-- C1: the GET /messages handler validates the two user parameters and
returns the conversation ordered by timestamp descending, but its SELECT
list omits the status column and Scan never assigns the Status field, so
every returned record carries the empty string as status — not the
persisted one. In the scenario of the specification, after the worker
commits the appended u1-to-u2 message, the row persists status delivered
yet the fetched record reports status empty instead of delivered. -/
theorem getMessages_drops_status :
    (sendMessage [] inScenario "uuid-1" "2025-03-15T12:00:00Z" true).appended
      = [eScenario]
    ∧ processStreamMessage [] mScenario fxAllOk
      = Outcome.done [rowScenario] true true
    ∧ rowScenario.status = "delivered"
    ∧ getMessages [rowScenario] "u1" "u2" true
      = ({ code := 200, body := [] },
         [{ message_id := "1680000000000-0", sender_id := "u1",
            receiver_id := "u2", content := "hi",
            timestamp := "2025-03-15T12:00:00Z", read := false,
            status := "" }])
    ∧ (getMessages [rowScenario] "u1" "u2" true).2.map MsgJson.status
      ≠ ["delivered"]
    ∧ (getMessages [rowOld, rowScenario] "u1" "u2" true).2.map
        MsgJson.message_id = ["1680000000000-0", "m-old"]
    ∧ getMessages [rowScenario] "u1" "" true
      = ({ code := 400,
           body := [("error", "user1 and user2 are required")] }, []) := by
  refine ⟨rfl, by decide, rfl, by decide, by decide, by decide, by decide⟩

/-- C2: the message_id column the worker writes is message.ID, the stream
entry id assigned by Redis at XAdd time — not the producer-generated
uuid, which sits unused under the message_id key of the entry field map.
At the scenario entry the committed row keys on the entry id. -/
theorem worker_writes_entry_id_not_uuid :
    lookupVal mScenario.values "message_id" = some (DynVal.str "uuid-1")
    ∧ processStreamMessage [] mScenario fxAllOk
      = Outcome.done [rowScenario] true true
    ∧ rowScenario.message_id = "1680000000000-0"
    ∧ rowScenario.message_id ≠ "uuid-1" := by
  refine ⟨by decide, by decide, rfl, by decide⟩

/-- C3: stopWorker is close(quit); in Go closing an already-closed channel
panics, so the second of two successive stop calls panics instead of
being a no-op. -/
theorem stopWorker_twice_panics :
    stopWorker false = some true ∧ (stopWorker false).bind stopWorker = none := by
  decide

/-- C4: the per-entry unit of work is atomic: when Begin, the INSERT, the
UPDATE or Commit fails, the store is left exactly as it was and
acknowledge is not called, so the entry stays unacknowledged and eligible
for redelivery; only when every step succeeds does the store gain the
fully delivered row, and only then is acknowledge called — an
acknowledge failure changes nothing in the committed store. -/
theorem worker_unit_of_work_atomic (db : List Row) (m : StreamMessage)
    (f : Extracted) (fx : FailSpec)
    (hf : extractFields m = some f) :
    processStreamMessage db m fx =
      if fx.beginOk && fx.insertOk && fx.updateOk && fx.commitOk then
        Outcome.done (setDelivered m.id (db ++ [rowOfEntry m.id f]))
          true fx.ackOk
      else Outcome.done db false false := by
  obtain ⟨b, i, u, c, a⟩ := fx
  simp only [processStreamMessage, hf, runUnitOfWork]
  cases b <;> cases i <;> cases u <;> cases c <;> simp

/-- C4 witness: with a failing INSERT, the scenario entry leaves the
store untouched and unacknowledged. -/
theorem worker_unit_of_work_atomic_witness :
    processStreamMessage [] mScenario
      { beginOk := true, insertOk := false, updateOk := true,
        commitOk := true, ackOk := true }
      = Outcome.done [] false false :=
  worker_unit_of_work_atomic [] mScenario
    { sender_id := "u1", receiver_id := "u2", content := "hi",
      timestamp := "2025-03-15T12:00:00Z", status := "sent" }
    { beginOk := true, insertOk := false, updateOk := true,
      commitOk := true, ackOk := true } rfl

/-- C5 counterexample: a worker blocked inside the read with the stop
signal already raised and no entry available is at a fixed point of the
loop: the blocking call does not return on the stop signal, so the worker
does not stop promptly. -/
theorem blocked_read_ignores_stop :
    step fxAllOk sBlocked = sBlocked
    ∧ sBlocked.quitClosed = true
    ∧ sBlocked.phase ≠ Phase.stopped := by
  decide

/-- C5 amended: the stop signal is observed only at the top of the loop —
a worker at the loop top with the signal raised stops at once, but a
worker blocked inside the read with no entry available stays blocked
regardless of the signal, until an entry arrives. -/
theorem stop_observed_only_at_loop_top (s : WorkerState) (fx : FailSpec) :
    (s.phase = Phase.polling → s.quitClosed = true →
      step fx s = { s with phase := Phase.stopped })
    ∧ (s.phase = Phase.blockedRead → s.pending = [] → step fx s = s) := by
  constructor
  · intro hp hq
    simp [step, hp, hq]
  · intro hp he
    simp [step, hp, he]

/-- C5 amended witness: at the concrete loop-top and blocked states. -/
theorem stop_observed_only_at_loop_top_witness :
    step fxAllOk { phase := Phase.polling, quitClosed := true,
                   pending := [], db := [] }
      = { phase := Phase.stopped, quitClosed := true,
          pending := [], db := [] }
    ∧ step fxAllOk sBlocked = sBlocked :=
  ⟨(stop_observed_only_at_loop_top
      { phase := Phase.polling, quitClosed := true, pending := [], db := [] }
      fxAllOk).1 rfl rfl,
   (stop_observed_only_at_loop_top sBlocked fxAllOk).2 rfl rfl⟩

/-- C6: POST /messages rejects with 400 and appends nothing when
sender_id, receiver_id or content is empty; on valid input it appends
exactly one entry — fresh message_id, the stamped time, status sent, read
false — and answers 200 with body status Message queued, or 500 when the
append fails; the relational store is never touched by the handler. -/
theorem sendMessage_spec (db : List Row) (msg : MsgInput)
    (freshId now : String) (appendOk : Bool) :
    (msg.sender_id = "" ∨ msg.receiver_id = "" ∨ msg.content = "" →
      sendMessage db msg freshId now appendOk =
        { resp := { code := 400, body := [("error", "Invalid message data")] },
          appended := [], db := db })
    ∧ (msg.sender_id ≠ "" → msg.receiver_id ≠ "" → msg.content ≠ "" →
      sendMessage db msg freshId now appendOk =
        if appendOk then
          { resp := { code := 200, body := [("status", "Message queued")] },
            appended := [{ message_id := freshId,
                           sender_id := msg.sender_id,
                           receiver_id := msg.receiver_id,
                           content := msg.content, timestamp := now,
                           read := false, status := "sent" }],
            db := db }
        else
          { resp := { code := 500,
                      body := [("error", "Failed to add message to stream")] },
            appended := [], db := db }) := by
  constructor
  · intro h
    simp [sendMessage, h]
  · intro h1 h2 h3
    simp [sendMessage, h1, h2, h3]

/-- C6 witness: the scenario request is appended once and queued; an
empty sender is rejected without an append. -/
theorem sendMessage_spec_witness :
    sendMessage [] inScenario "uuid-1" "2025-03-15T12:00:00Z" true =
      { resp := { code := 200, body := [("status", "Message queued")] },
        appended := [eScenario], db := [] }
    ∧ sendMessage []
        { message_id := "", sender_id := "", receiver_id := "u2",
          content := "hi", read := false, status := "" }
        "uuid-2" "2025-03-15T12:00:00Z" true =
      { resp := { code := 400, body := [("error", "Invalid message data")] },
        appended := [], db := [] } :=
  ⟨(sendMessage_spec [] inScenario "uuid-1" "2025-03-15T12:00:00Z" true).2
      (by decide) (by decide) (by decide),
   (sendMessage_spec []
      { message_id := "", sender_id := "", receiver_id := "u2",
        content := "hi", read := false, status := "" }
      "uuid-2" "2025-03-15T12:00:00Z" true).1 (Or.inl rfl)⟩

/-- C7: PUT /messages/:id/delivered applies the conditional UPDATE — only
a row whose message_id matches and whose current status is sent moves to
delivered; rows in status delivered or read, and rows with another id,
are unchanged — and it answers 200 whenever the Exec succeeds, whether or
not any row matched; only a store failure yields 500, leaving the store
unchanged. -/
theorem markDelivered_spec (db : List Row) (id : String) :
    (markMessageAsDelivered db id true).1.code = 200
    ∧ (markMessageAsDelivered db id false).1.code = 500
    ∧ (markMessageAsDelivered db id false).2 = db
    ∧ (markMessageAsDelivered db id true).2 = db.map (deliveredUpdate id)
    ∧ (∀ r : Row, r.status = "delivered" ∨ r.status = "read" →
        deliveredUpdate id r = r)
    ∧ (∀ r : Row, r.message_id ≠ id → deliveredUpdate id r = r)
    ∧ (∀ r : Row, r.message_id = id → r.status = "sent" →
        deliveredUpdate id r = { r with status := "delivered" }) := by
  refine ⟨rfl, rfl, rfl, rfl, ?_, ?_, ?_⟩
  · intro r h
    rcases h with h | h <;> simp [deliveredUpdate, h]
  · intro r h
    simp [deliveredUpdate, h]
  · intro r h1 h2
    simp [deliveredUpdate, h1, h2]

/-- C7 witness: a non-matching id still answers 200, and a row already
delivered is left unchanged. -/
theorem markDelivered_spec_witness :
    (markMessageAsDelivered [rowScenario] "no-such-id" true).1.code = 200
    ∧ deliveredUpdate "no-such-id" rowScenario = rowScenario :=
  ⟨(markDelivered_spec [rowScenario] "no-such-id").1,
   (markDelivered_spec [rowScenario] "no-such-id").2.2.2.2.1 rowScenario
     (Or.inl rfl)⟩

/-- C8: worker startup treats a create-group error mentioning BUSYGROUP
(group already exists) as success and proceeds to polling, while any
other create-group error is fatal to startup; no error also proceeds. -/
theorem createGroup_idempotent (msg : String) :
    createGroupStartup none = StartupOutcome.groupReady
    ∧ (strContains msg "BUSYGROUP" = true →
        createGroupStartup (some msg) = StartupOutcome.groupReady)
    ∧ (strContains msg "BUSYGROUP" = false →
        createGroupStartup (some msg) = StartupOutcome.fatal) := by
  refine ⟨rfl, ?_, ?_⟩ <;> intro h <;> simp [createGroupStartup, h]

/-- C8 witness: the BUSYGROUP error text Redis returns for an existing
group proceeds; a different error text is fatal. -/
theorem createGroup_idempotent_witness :
    createGroupStartup
      (some "BUSYGROUP Consumer Group name already exists")
      = StartupOutcome.groupReady
    ∧ createGroupStartup (some "NOGROUP no such stream")
      = StartupOutcome.fatal :=
  ⟨(createGroup_idempotent "BUSYGROUP Consumer Group name already exists").2.1
     (by decide),
   (createGroup_idempotent "NOGROUP no such stream").2.2 (by decide)⟩

/-- C9: a well-formed stream entry missing the status field, or carrying
a non-string content field, makes the worker field extraction panic
(unchecked type assertion) before any store write: the cycle ends
panicked with the store exactly as before, and one loop step on such an
entry crashes the goroutine. -/
theorem malformed_entry_panics (db : List Row) (fx : FailSpec) :
    processStreamMessage db mNoStatus fx = Outcome.panicked db
    ∧ processStreamMessage db mIntContent fx = Outcome.panicked db
    ∧ step fx { phase := Phase.polling, quitClosed := false,
                pending := [mNoStatus], db := db }
      = { phase := Phase.crashed, quitClosed := false,
          pending := [], db := db } :=
  ⟨rfl, rfl, rfl⟩

/-- C10: the appended durable-log entry depends only on sender_id,
receiver_id and content — two valid request bodies agreeing on those
three fields yield identical results for the same generated id and
timestamp, whatever message_id, read or status the clients supplied; and
every appended entry carries the fresh id, the stamped time, status sent
and read false. -/
theorem producer_ignores_client_fields (db : List Row) (m1 m2 : MsgInput)
    (freshId now : String) (appendOk : Bool)
    (hs : m1.sender_id = m2.sender_id)
    (hr : m1.receiver_id = m2.receiver_id)
    (hc : m1.content = m2.content) :
    sendMessage db m1 freshId now appendOk
      = sendMessage db m2 freshId now appendOk
    ∧ ∀ e ∈ (sendMessage db m1 freshId now appendOk).appended,
        e.message_id = freshId ∧ e.timestamp = now
        ∧ e.status = "sent" ∧ e.read = false := by
  constructor
  · simp [sendMessage, hs, hr, hc]
  · intro e he
    simp only [sendMessage] at he
    split at he
    · simp at he
    · split at he
      · simp at he
        subst he
        exact ⟨rfl, rfl, rfl, rfl⟩
      · simp at he

/-- C10 witness: two scenario bodies differing only in client-supplied
message_id, read and status append the same entry. -/
theorem producer_ignores_client_fields_witness :
    sendMessage []
      { message_id := "client-a", sender_id := "u1", receiver_id := "u2",
        content := "hi", read := false, status := "" }
      "uuid-1" "2025-03-15T12:00:00Z" true
    = sendMessage []
      { message_id := "client-b", sender_id := "u1", receiver_id := "u2",
        content := "hi", read := true, status := "read" }
      "uuid-1" "2025-03-15T12:00:00Z" true :=
  (producer_ignores_client_fields []
    { message_id := "client-a", sender_id := "u1", receiver_id := "u2",
      content := "hi", read := false, status := "" }
    { message_id := "client-b", sender_id := "u1", receiver_id := "u2",
      content := "hi", read := true, status := "read" }
    "uuid-1" "2025-03-15T12:00:00Z" true rfl rfl rfl).1

end Messaging
